import Mathlib

/-!
# Verification of the annotation-based MCP tool filter

Shallow embedding of `filtered_mcp_tools.py`
(`ibmi_agent_sdk/langchain/filtered_mcp_tools.py`): the annotation value
model, the matcher `_annotation_value_matches_filter`, the per-tool
decision `_should_include_tool`, and the filtering pass of
`load_filtered_mcp_tools` (its pure core over an already-fetched tool
list), together with its debug trace.

Python dynamic values relevant to the filter are scalars (str/bool/int),
ordered sequences of scalars, and `None` (the "no value" marker used for a
missing annotation).  Python equality `==` makes `True == 1` and
`False == 0` hold (bool is a subclass of int); `pyEqScalar` embeds that.
A Python callable that may raise is embedded as a function into
`Except Unit Value`; `Except.error` stands for a raised exception.
-/

/-- A Python scalar value as used by the filter: `str`, `bool` or `int`. -/
inductive Scalar where
  | str (s : String)
  | bool (b : Bool)
  | int (n : Int)
deriving DecidableEq, Repr

/-- A Python value in the filter's domain: the `None` marker, a scalar, or a
list of scalars (the shapes the spec's data model gives to annotation
values). -/
inductive Value where
  | none
  | scalar (s : Scalar)
  | list (xs : List Scalar)
deriving DecidableEq, Repr

/-- Python `==` on scalars: same-type comparison is structural equality, and
`bool` compares equal to `int` via `True == 1`, `False == 0`; strings never
equal non-strings. -/
def pyEqScalar : Scalar → Scalar → Bool
  | .str a, .str b => a == b
  | .bool a, .bool b => a == b
  | .int a, .int b => a == b
  | .bool a, .int b => (if a then (1 : Int) else 0) == b
  | .int a, .bool b => a == (if b then (1 : Int) else 0)
  | _, _ => false

/-- Python `==` between a value and a scalar: `None` and lists never equal a
scalar; scalars compare with `pyEqScalar`. -/
def pyEqValueScalar : Value → Scalar → Bool
  | .scalar a, s => pyEqScalar a s
  | .none, _ => false
  | .list _, _ => false

/-- Python truthiness `bool(v)` on the filter's value domain. -/
def pyBool : Value → Bool
  | .none => false
  | .scalar (.str s) => !(s == "")
  | .scalar (.bool b) => b
  | .scalar (.int n) => !(n == 0)
  | .list xs => !xs.isEmpty

/-- A filter value (`FilterSpec` entry): a scalar, an ordered sequence of
scalars, or a callable.  The callable receives the tool's raw annotation
value; `Except.error` models a raised exception. -/
inductive FilterValue where
  | scalar (s : Scalar)
  | list (xs : List Scalar)
  | callable (f : Value → Except Unit Value)

/-- `true` when the filter value is a callable. -/
def FilterValue.isCallable : FilterValue → Bool
  | .callable _ => true
  | _ => false

/-- A tool descriptor: a name and the `metadata` mapping where the LangChain
MCP adapter stores annotations (`Option.none` when the attribute is absent
or `None`). -/
structure Tool where
  name : String
  metadata : Option (List (String × Value))
deriving DecidableEq, Repr

/-- Embeds `_get_annotation_value`: read `tool.metadata[key]` when the
metadata mapping is present, returning the `None` marker when the key or
the mapping is missing. -/
def _get_annotation_value (tool : Tool) (key : String) : Value :=
  match tool.metadata with
  | Option.some m => (m.lookup key).getD Value.none
  | Option.none => Value.none

/-- Embeds `_annotation_value_matches_filter`: callables are applied inside a
`try/except` with any raised error downgraded to `false` and a truthy
result counted as a match; a list filter intersects with a list annotation
and tests membership for any other annotation value; a scalar filter uses
Python `==`. -/
def _annotation_value_matches_filter (v : Value) (fv : FilterValue) : Bool :=
  match fv with
  | .callable f =>
      match f v with
      | .error _ => false
      | .ok r => pyBool r
  | .list fs =>
      match v with
      | .list xs => xs.any (fun x => fs.any (fun y => pyEqScalar x y))
      | w => fs.any (fun y => pyEqValueScalar w y)
  | .scalar s => pyEqValueScalar v s

/-- The custom-filter step of `_should_include_tool`: absent means pass;
present is applied inside a `try/except`, a raised error or a falsy result
meaning exclusion. -/
def customPasses (tool : Tool) : Option (Tool → Except Unit Value) → Bool
  | Option.none => true
  | Option.some f =>
      match f tool with
      | .error _ => false
      | .ok r => pyBool r

/-- The annotation-filter loop of `_should_include_tool`: every key of the
filter mapping must match the tool's annotation value for that key. -/
def annotationsPass (tool : Tool) : Option (List (String × FilterValue)) → Bool
  | Option.none => true
  | Option.some fs =>
      fs.all (fun kv => _annotation_value_matches_filter (_get_annotation_value tool kv.1) kv.2)

/-- Embeds `_should_include_tool`: the custom filter is evaluated first and
must pass, then every entry of the annotation filters must match. -/
def _should_include_tool (tool : Tool)
    (filters : Option (List (String × FilterValue)))
    (custom : Option (Tool → Except Unit Value)) : Bool :=
  customPasses tool custom && annotationsPass tool filters

/-- Python truthiness of the `annotation_filters` argument: `None` and the
empty mapping are falsy. -/
def filtersTruthy : Option (List (String × FilterValue)) → Bool
  | Option.none => false
  | Option.some [] => false
  | Option.some (_ :: _) => true

/-- The pure filtering pass of `load_filtered_mcp_tools` over the fetched
tool list: when both the annotation filters and the custom filter are
absent/falsy the list is returned unchanged, otherwise the tools passing
`_should_include_tool` are kept in order. -/
def filterTools (all_tools : List Tool)
    (filters : Option (List (String × FilterValue)))
    (custom : Option (Tool → Except Unit Value)) : List Tool :=
  if !filtersTruthy filters && custom.isNone then
    all_tools
  else
    all_tools.filter (fun t => _should_include_tool t filters custom)

/-- Python `str()` of a value in the filter's domain, as used by the debug
f-strings (scalars print their payload, lists print bracketed repr-style
elements, the missing-value marker prints as the word for it). -/
def pyStr : Value → String
  | .none => "None"
  | .scalar (.str s) => s
  | .scalar (.bool b) => if b then "True" else "False"
  | .scalar (.int n) => toString n
  | .list xs =>
      let elems := xs.map (fun x =>
        match x with
        | .str s => "\x27" ++ s ++ "\x27"
        | .bool b => if b then "True" else "False"
        | .int n => toString n)
      "[" ++ String.intercalate ", " elems ++ "]"

/-- The debug line emitted for an excluded tool: the checked annotation
key/value pairs, or a fixed phrase when no annotation filters are set. -/
def excludeLine (tool : Tool) (filters : Option (List (String × FilterValue))) : String :=
  let infos :=
    match filters with
    | Option.none => []
    | Option.some fs => fs.map (fun kv => kv.1 ++ "=" ++ pyStr (_get_annotation_value tool kv.1))
  let infoStr := if infos.isEmpty then "no matching annotations" else String.intercalate ", " infos
  "[FilteredMCPTools] X Excluding tool: " ++ tool.name ++ " (" ++ infoStr ++ ")"

/-- The debug line emitted for an included tool. -/
def includeLine (tool : Tool) : String :=
  "[FilteredMCPTools] + Including tool: " ++ tool.name

/-- The per-tool loop of `load_filtered_mcp_tools`: accumulates the kept
tools in order and, when `debug` is set, one trace line per tool. -/
def filterLoop (filters : Option (List (String × FilterValue)))
    (custom : Option (Tool → Except Unit Value)) (debug : Bool) :
    List Tool → List Tool × List String
  | [] => ([], [])
  | t :: ts =>
      let rest := filterLoop filters custom debug ts
      if _should_include_tool t filters custom then
        (t :: rest.1, (if debug then [includeLine t] else []) ++ rest.2)
      else
        (rest.1, (if debug then [excludeLine t filters] else []) ++ rest.2)

/-- Embeds `load_filtered_mcp_tools` after the tool list has been fetched:
returns the filtered list together with the debug trace lines printed along
the way (empty when `debug` is false). -/
def load_filtered_mcp_tools_model (all_tools : List Tool)
    (filters : Option (List (String × FilterValue)))
    (custom : Option (Tool → Except Unit Value)) (debug : Bool) :
    List Tool × List String :=
  let n := all_tools.length
  let header := if debug then ["[FilteredMCPTools] Loaded " ++ toString n ++ " total tools from MCP server"] else []
  if !filtersTruthy filters && custom.isNone then
    (all_tools,
     header ++ if debug then ["[FilteredMCPTools] No filters specified, returning all tools"] else [])
  else
    let applying := if debug then ["[FilteredMCPTools] Applying filters"] else []
    let body := filterLoop filters custom debug all_tools
    let m := body.1.length
    let footer := if debug then ["[FilteredMCPTools] Filtered to " ++ toString m ++ " tools"] else []
    (body.1, header ++ applying ++ body.2 ++ footer)

/-! ## Concrete fixtures used by the examples in the claims -/

/-- A tool tagged `toolsets = ["performance"]` with `readOnlyHint = false`. -/
def toolAc : Tool :=
  { name := "A"
    metadata := Option.some
      [("toolsets", Value.list [Scalar.str "performance"]),
       ("readOnlyHint", Value.scalar (Scalar.bool false))] }

/-- A tool tagged `toolsets = ["performance", "sysadmin"]`. -/
def toolPerfSys : Tool :=
  { name := "P"
    metadata := Option.some
      [("toolsets", Value.list [Scalar.str "performance", Scalar.str "sysadmin"])] }

/-- A tool whose metadata carries no `toolsets` annotation at all. -/
def toolNoTs : Tool :=
  { name := "D"
    metadata := Option.some [("other", Value.scalar (Scalar.int 0))] }

/-! ## Supporting lemmas (shared) -/

/-- The kept-tools component of the per-tool loop is exactly a `List.filter`
by `_should_include_tool`, for either debug setting. -/
theorem filterLoop_fst (filters : Option (List (String × FilterValue)))
    (custom : Option (Tool → Except Unit Value)) (debug : Bool) (ts : List Tool) :
    (filterLoop filters custom debug ts).1 =
      ts.filter (fun t => _should_include_tool t filters custom) := by
  induction ts with
  | nil => rfl
  | cons t ts ih =>
      simp only [filterLoop, List.filter_cons]
      cases h : _should_include_tool t filters custom <;> simp [h, ih]

/-- `filterTools` with a custom filter present never takes the early-return
branch: it is the plain `List.filter` by `_should_include_tool`. -/
theorem filterTools_some_custom (L : List Tool)
    (filters : Option (List (String × FilterValue)))
    (f : Tool → Except Unit Value) :
    filterTools L filters (Option.some f) =
      L.filter (fun t => _should_include_tool t filters (Option.some f)) := by
  simp [filterTools]

/-! ## Claims -/

/-- C6: filtering with an absent or empty filter mapping and no custom
predicate returns the input tool list unchanged, in order and length. -/
theorem c6_empty_filters_identity (L : List Tool) :
    filterTools L Option.none Option.none = L
    ∧ filterTools L (Option.some []) Option.none = L :=
  ⟨rfl, rfl⟩

/-- C7: the filtering pass always returns an ordered subset of its input:
a sublist of the input, hence no longer than the input, containing only
members of the input, with multiplicities bounded by the input's, in the
input's relative order. -/
theorem c7_ordered_subset (L : List Tool)
    (filters : Option (List (String × FilterValue)))
    (custom : Option (Tool → Except Unit Value)) :
    (filterTools L filters custom).Sublist L
    ∧ (filterTools L filters custom).length ≤ L.length
    ∧ (∀ t ∈ filterTools L filters custom, t ∈ L)
    ∧ (∀ t : Tool, (filterTools L filters custom).count t ≤ L.count t) := by
  have hsub : (filterTools L filters custom).Sublist L := by
    unfold filterTools
    split
    · exact List.Sublist.refl L
    · exact List.filter_sublist L
  exact ⟨hsub, hsub.length_le, fun t ht => hsub.subset ht, fun t => hsub.count_le t⟩

/-- C7 witness: at a concrete one-tool list the pass returns a sublist, and
membership in the result transports to membership in the input. -/
theorem c7_ordered_subset_witness :
    (filterTools [toolAc] Option.none Option.none).Sublist [toolAc]
    ∧ toolAc ∈ filterTools [toolAc] Option.none Option.none
    ∧ toolAc ∈ [toolAc] :=
  ⟨(c7_ordered_subset [toolAc] Option.none Option.none).1,
   List.mem_singleton.mpr rfl,
   (c7_ordered_subset [toolAc] Option.none Option.none).2.2.1 toolAc
     (List.mem_singleton.mpr rfl)⟩

/-- C8: filtering is idempotent: applying the pass to its own output with
the same filter mapping and custom predicate returns that output
unchanged. -/
theorem c8_idempotent (L : List Tool)
    (filters : Option (List (String × FilterValue)))
    (custom : Option (Tool → Except Unit Value)) :
    filterTools (filterTools L filters custom) filters custom =
      filterTools L filters custom := by
  by_cases hc : (!filtersTruthy filters && custom.isNone) = true
  · simp [filterTools, hc]
  · simp only [filterTools, if_neg hc]
    rw [List.filter_filter]
    simp

/-- C9: the debug flag never affects the result: the tool list returned by
the pass with `debug = true` equals the one with `debug = false`, and for
either setting it is exactly `filterTools`; debug only adds trace lines. -/
theorem c9_debug_independent (L : List Tool)
    (filters : Option (List (String × FilterValue)))
    (custom : Option (Tool → Except Unit Value)) :
    (load_filtered_mcp_tools_model L filters custom true).1 =
      (load_filtered_mcp_tools_model L filters custom false).1
    ∧ ∀ d : Bool,
        (load_filtered_mcp_tools_model L filters custom d).1 = filterTools L filters custom := by
  have hd : ∀ d : Bool,
      (load_filtered_mcp_tools_model L filters custom d).1 = filterTools L filters custom := by
    intro d
    by_cases hc : (!filtersTruthy filters && custom.isNone) = true
    · simp [load_filtered_mcp_tools_model, filterTools, hc]
    · simp [load_filtered_mcp_tools_model, filterTools, hc, filterLoop_fst]
  exact ⟨(hd true).trans (hd false).symm, hd⟩

/-- C1: evaluation errors are downgraded to "no match", never propagated:
a callable filter value that raises makes its key fail; a custom predicate
that raises on a tool excludes that tool; and the pass continues over the
remaining tools — filtering a list around such a tool just drops it and
filters the rest as usual.  (Probing an annotation is likewise total in the
model: `_get_annotation_value` returns the `None` marker instead of
failing.) -/
theorem c1_errors_downgraded_to_no_match
    (g : Value → Except Unit Value) (f : Tool → Except Unit Value)
    (v : Value) (t : Tool)
    (filters : Option (List (String × FilterValue)))
    (pre post : List Tool) :
    (g v = Except.error () →
       _annotation_value_matches_filter v (FilterValue.callable g) = false)
    ∧ (f t = Except.error () →
       _should_include_tool t filters (Option.some f) = false)
    ∧ (f t = Except.error () →
       filterTools (pre ++ t :: post) filters (Option.some f) =
         filterTools pre filters (Option.some f) ++
           filterTools post filters (Option.some f)) := by
  refine ⟨?_, ?_, ?_⟩
  · intro h
    simp [_annotation_value_matches_filter, h]
  · intro h
    simp [_should_include_tool, customPasses, h]
  · intro h
    have hni : _should_include_tool t filters (Option.some f) = false := by
      simp [_should_include_tool, customPasses, h]
    rw [filterTools_some_custom, filterTools_some_custom, filterTools_some_custom,
      List.filter_append, List.filter_cons, hni]
    simp

/-- C1 witness: at a concrete always-raising callable and custom predicate,
the key fails, the tool is excluded, and filtering a two-tool list around
the failing tool splits into the filters of the surrounding pieces. -/
theorem c1_errors_downgraded_to_no_match_witness :
    (_annotation_value_matches_filter Value.none
       (FilterValue.callable (fun _ => Except.error ())) = false)
    ∧ (_should_include_tool toolNoTs Option.none
         (Option.some (fun _ => Except.error ())) = false)
    ∧ (filterTools [toolNoTs, toolAc] Option.none
         (Option.some (fun _ => Except.error ())) =
       filterTools [] Option.none (Option.some (fun _ => Except.error ())) ++
         filterTools [toolAc] Option.none (Option.some (fun _ => Except.error ()))) :=
  ⟨(c1_errors_downgraded_to_no_match (fun _ => Except.error ()) (fun _ => Except.error ())
      Value.none toolNoTs Option.none [] []).1 rfl,
   (c1_errors_downgraded_to_no_match (fun _ => Except.error ()) (fun _ => Except.error ())
      Value.none toolNoTs Option.none [] []).2.1 rfl,
   (c1_errors_downgraded_to_no_match (fun _ => Except.error ()) (fun _ => Except.error ())
      Value.none toolNoTs Option.none [] [toolAc]).2.2 rfl⟩

/-- C2: a list filter value matches a list annotation exactly when the two
share an element under Python equality (non-empty set intersection), and
matches a scalar annotation exactly when that scalar is a member of the
filter list; in particular `toolsets = ["performance", "sysadmin"]` passes
`{toolsets: ["performance"]}` and `{toolsets: ["sysadmin", "security"]}`
and fails `{toolsets: ["security"]}`. -/
theorem c2_list_filter_semantics (fs xs : List Scalar) (a : Scalar) :
    (_annotation_value_matches_filter (Value.list xs) (FilterValue.list fs) = true ↔
       ∃ x ∈ xs, ∃ y ∈ fs, pyEqScalar x y = true)
    ∧ (_annotation_value_matches_filter (Value.scalar a) (FilterValue.list fs) = true ↔
       ∃ y ∈ fs, pyEqScalar a y = true)
    ∧ _should_include_tool toolPerfSys
        (Option.some [("toolsets", FilterValue.list [Scalar.str "performance"])])
        Option.none = true
    ∧ _should_include_tool toolPerfSys
        (Option.some [("toolsets", FilterValue.list [Scalar.str "sysadmin", Scalar.str "security"])])
        Option.none = true
    ∧ _should_include_tool toolPerfSys
        (Option.some [("toolsets", FilterValue.list [Scalar.str "security"])])
        Option.none = false := by
  refine ⟨?_, ?_, by decide, by decide, by decide⟩
  · simp [_annotation_value_matches_filter]
  · simp [_annotation_value_matches_filter, pyEqValueScalar]

/-- C3 counterexample: the claim says a scalar filter value of a different
type never matches (integer 1 against boolean true must not match), but the
code compares with Python `==`, under which `1 == True`: the integer
annotation value 1 matches the boolean filter value `true`. -/
theorem c3_counterexample :
    _annotation_value_matches_filter (Value.scalar (Scalar.int 1))
      (FilterValue.scalar (Scalar.bool true)) = true := by
  decide

/-- C3 amended: a scalar filter value matches exactly when the annotation
value equals it under Python equality: same-type scalars match exactly when
structurally equal, a boolean and an integer match exactly when the integer
is the boolean's numeric value (True↔1, False↔0), strings never match
non-strings, and a missing or list-valued annotation never matches a scalar
filter; `readOnlyHint = true` passes `{readOnlyHint: true}` and fails
`{readOnlyHint: false}`. -/
theorem c3_scalar_filter_python_equality :
    (∀ s1 s2 : String,
       _annotation_value_matches_filter (Value.scalar (Scalar.str s1))
         (FilterValue.scalar (Scalar.str s2)) = true ↔ s1 = s2)
    ∧ (∀ b1 b2 : Bool,
       _annotation_value_matches_filter (Value.scalar (Scalar.bool b1))
         (FilterValue.scalar (Scalar.bool b2)) = true ↔ b1 = b2)
    ∧ (∀ n1 n2 : Int,
       _annotation_value_matches_filter (Value.scalar (Scalar.int n1))
         (FilterValue.scalar (Scalar.int n2)) = true ↔ n1 = n2)
    ∧ (∀ (b : Bool) (n : Int),
       _annotation_value_matches_filter (Value.scalar (Scalar.bool b))
         (FilterValue.scalar (Scalar.int n)) = true ↔ n = if b then 1 else 0)
    ∧ (∀ (b : Bool) (n : Int),
       _annotation_value_matches_filter (Value.scalar (Scalar.int n))
         (FilterValue.scalar (Scalar.bool b)) = true ↔ n = if b then 1 else 0)
    ∧ (∀ (s1 : String) (b : Bool),
       _annotation_value_matches_filter (Value.scalar (Scalar.str s1))
         (FilterValue.scalar (Scalar.bool b)) = false)
    ∧ (∀ (s1 : String) (n : Int),
       _annotation_value_matches_filter (Value.scalar (Scalar.str s1))
         (FilterValue.scalar (Scalar.int n)) = false)
    ∧ (∀ (b : Bool) (s2 : String),
       _annotation_value_matches_filter (Value.scalar (Scalar.bool b))
         (FilterValue.scalar (Scalar.str s2)) = false)
    ∧ (∀ (n : Int) (s2 : String),
       _annotation_value_matches_filter (Value.scalar (Scalar.int n))
         (FilterValue.scalar (Scalar.str s2)) = false)
    ∧ (∀ s : Scalar,
       _annotation_value_matches_filter Value.none (FilterValue.scalar s) = false)
    ∧ (∀ (xs : List Scalar) (s : Scalar),
       _annotation_value_matches_filter (Value.list xs) (FilterValue.scalar s) = false)
    ∧ _annotation_value_matches_filter (Value.scalar (Scalar.bool true))
        (FilterValue.scalar (Scalar.bool true)) = true
    ∧ _annotation_value_matches_filter (Value.scalar (Scalar.bool true))
        (FilterValue.scalar (Scalar.bool false)) = false := by
  refine ⟨?_, ?_, ?_, ?_, ?_, ?_, ?_, ?_, ?_, ?_, ?_, by decide, by decide⟩
  · intro s1 s2
    simp [_annotation_value_matches_filter, pyEqValueScalar, pyEqScalar]
  · intro b1 b2
    simp [_annotation_value_matches_filter, pyEqValueScalar, pyEqScalar]
  · intro n1 n2
    simp [_annotation_value_matches_filter, pyEqValueScalar, pyEqScalar]
  · intro b n
    cases b <;> simp only [_annotation_value_matches_filter, pyEqValueScalar, pyEqScalar,
      beq_iff_eq, if_true, if_false, Bool.false_eq_true] <;> omega
  · intro b n
    cases b <;> simp only [_annotation_value_matches_filter, pyEqValueScalar, pyEqScalar,
      beq_iff_eq, if_true, if_false, Bool.false_eq_true]
  · intro s1 b
    rfl
  · intro s1 n
    rfl
  · intro b s2
    rfl
  · intro n s2
    rfl
  · intro s
    rfl
  · intro xs s
    rfl

/-- C4: a tool is included exactly when the custom predicate (evaluated
first, when present) passes and every key of the filter mapping matches;
as soon as one key fails the tool is excluded, whatever the remaining keys
are; in particular the tool with `toolsets = ["performance"]` and
`readOnlyHint = false` passes `{toolsets: ["performance"]}` alone and fails
the combined `{toolsets: ["performance"], readOnlyHint: true}`. -/
theorem c4_and_semantics_short_circuit (tool : Tool)
    (custom : Option (Tool → Except Unit Value))
    (fs : List (String × FilterValue)) :
    (_should_include_tool tool (Option.some fs) custom = true ↔
       customPasses tool custom = true ∧
         ∀ kv ∈ fs,
           _annotation_value_matches_filter (_get_annotation_value tool kv.1) kv.2 = true)
    ∧ (∀ (pre : List (String × FilterValue)) (k : String) (v : FilterValue)
         (post : List (String × FilterValue)),
         _annotation_value_matches_filter (_get_annotation_value tool k) v = false →
         _should_include_tool tool (Option.some (pre ++ (k, v) :: post)) custom = false)
    ∧ _should_include_tool toolAc
        (Option.some [("toolsets", FilterValue.list [Scalar.str "performance"])])
        Option.none = true
    ∧ _should_include_tool toolAc
        (Option.some [("toolsets", FilterValue.list [Scalar.str "performance"]),
                      ("readOnlyHint", FilterValue.scalar (Scalar.bool true))])
        Option.none = false := by
  refine ⟨?_, ?_, by decide, by decide⟩
  · simp [_should_include_tool, annotationsPass, List.all_eq_true]
  · intro pre k v post h
    simp [_should_include_tool, annotationsPass, h]

/-- C4 witness: at the concrete tool and combined filter of the example, the
`readOnlyHint` key fails and the short-circuit part of the theorem yields
exclusion. -/
theorem c4_and_semantics_short_circuit_witness :
    _annotation_value_matches_filter (_get_annotation_value toolAc "readOnlyHint")
      (FilterValue.scalar (Scalar.bool true)) = false
    ∧ _should_include_tool toolAc
        (Option.some [("toolsets", FilterValue.list [Scalar.str "performance"]),
                      ("readOnlyHint", FilterValue.scalar (Scalar.bool true))])
        Option.none = false :=
  ⟨by decide,
   (c4_and_semantics_short_circuit toolAc Option.none []).2.1
     [("toolsets", FilterValue.list [Scalar.str "performance"])]
     "readOnlyHint" (FilterValue.scalar (Scalar.bool true)) [] (by decide)⟩

/-- C5 counterexample: the claim says a tool lacking an annotation fails
every filter keyed on it "regardless of the filter value's kind", but a
callable filter value receives the `None` marker and may return true: here
a tool with no `toolsets` annotation passes a filter whose `toolsets` entry
is a callable returning `True`. -/
theorem c5_counterexample :
    _get_annotation_value toolNoTs "toolsets" = Value.none
    ∧ _should_include_tool toolNoTs
        (Option.some [("toolsets",
           FilterValue.callable (fun _ => Except.ok (Value.scalar (Scalar.bool true))))])
        Option.none = true :=
  ⟨rfl, rfl⟩

/-- C5 amended: a tool lacking a given annotation key (absence represented
as the `None` marker, never an error) fails any filter keyed on that
annotation whose filter value is a scalar or a list; a callable filter
value instead receives the marker and matches exactly when it returns a
truthy result. -/
theorem c5_missing_annotation_fails_noncallable (tool : Tool) (k : String)
    (v : FilterValue) (entries : List (String × FilterValue))
    (custom : Option (Tool → Except Unit Value))
    (hmiss : _get_annotation_value tool k = Value.none)
    (hmem : (k, v) ∈ entries)
    (hnc : v.isCallable = false) :
    _should_include_tool tool (Option.some entries) custom = false := by
  have hkey : _annotation_value_matches_filter (_get_annotation_value tool k) v = false := by
    rw [hmiss]
    cases v with
    | scalar s => rfl
    | list fs => simp [_annotation_value_matches_filter, pyEqValueScalar]
    | callable f => simp [FilterValue.isCallable] at hnc
  have hall : annotationsPass tool (Option.some entries) = false := by
    unfold annotationsPass
    rw [Bool.eq_false_iff]
    intro hall
    rw [List.all_eq_true] at hall
    have h2 := hall (k, v) hmem
    rw [hkey] at h2
    exact Bool.false_ne_true h2
  unfold _should_include_tool
  rw [hall, Bool.and_false]

/-- C5 witness: the concrete tool without a `toolsets` annotation is
excluded by the scalar-free filter `{toolsets: ["performance"]}`
(a list filter value, hence not callable). -/
theorem c5_missing_annotation_fails_noncallable_witness :
    (_get_annotation_value toolNoTs "toolsets" = Value.none
     ∧ (FilterValue.list [Scalar.str "performance"]).isCallable = false)
    ∧ _should_include_tool toolNoTs
        (Option.some [("toolsets", FilterValue.list [Scalar.str "performance"])])
        Option.none = false :=
  ⟨⟨rfl, rfl⟩,
   c5_missing_annotation_fails_noncallable toolNoTs "toolsets"
     (FilterValue.list [Scalar.str "performance"])
     [("toolsets", FilterValue.list [Scalar.str "performance"])]
     Option.none rfl (List.mem_singleton.mpr rfl) rfl⟩

/-- C10: a scalar filter value against a list-valued annotation falls
through to plain Python equality between the list and the scalar, which
never holds: such a key never matches, so `{toolsets: "performance"}`
excludes every tool whose `toolsets` annotation is a list, even one
containing `"performance"`. -/
theorem c10_scalar_filter_never_matches_list_value
    (xs : List Scalar) (s : Scalar) (tool : Tool) (k : String)
    (custom : Option (Tool → Except Unit Value))
    (pre post : List (String × FilterValue)) :
    _annotation_value_matches_filter (Value.list xs) (FilterValue.scalar s) = false
    ∧ (_get_annotation_value tool k = Value.list xs →
        _should_include_tool tool
          (Option.some (pre ++ (k, FilterValue.scalar s) :: post)) custom = false)
    ∧ _should_include_tool toolAc
        (Option.some [("toolsets", FilterValue.scalar (Scalar.str "performance"))])
        Option.none = false := by
  refine ⟨rfl, ?_, by decide⟩
  intro hl
  have hkey : _annotation_value_matches_filter (_get_annotation_value tool k)
      (FilterValue.scalar s) = false := by
    rw [hl]; rfl
  simp [_should_include_tool, annotationsPass, hkey]

/-- C10 witness: the concrete tool with `toolsets = ["performance"]` is
excluded by the scalar filter `{toolsets: "performance"}` via the general
part of the theorem. -/
theorem c10_scalar_filter_never_matches_list_value_witness :
    _get_annotation_value toolAc "toolsets" = Value.list [Scalar.str "performance"]
    ∧ _should_include_tool toolAc
        (Option.some [("toolsets", FilterValue.scalar (Scalar.str "performance"))])
        Option.none = false :=
  ⟨rfl,
   (c10_scalar_filter_never_matches_list_value [Scalar.str "performance"]
      (Scalar.str "performance") toolAc "toolsets" Option.none [] []).2.1 rfl⟩
